import Mathlib

/-!
# Admin dashboard controller (`static/js/admin.js`)

A shallow embedding of the four handlers of `admin.js`:
`viewInquiry`, `closeModal`, `deleteInquiry` and the `window.onclick` handler.

* The document is the list of its elements in document order.  A node is
  referred to by its position in that list, so `===` on nodes is equality of
  positions.  Only the three attributes the script reads or writes are kept:
  `id`, `textContent` and `style.display`.
* Everything the script does to the outside (dialogs, the network request,
  the console, the page reload) is appended to a trace of effects.
* A statement that dereferences `null` throws; what was written before the
  throw stays written, so a handler returns the page together with the
  exception it ended with, if any.
* An inquiry identifier is represented by its string conversion, which is
  the only way the script uses it (in the template literal of the path).
* The tree structure of the document is not kept.  The message element sits
  inside the modal, so replacing its text leaves the modal in the document.
* `location.reload()` is recorded in the trace; the document that the browser
  loads afterwards is not the script's doing and is not modelled.
-/

namespace Admin

/-! ## Data model -/

/-- A JavaScript exception value: the name of its constructor and its text. -/
structure JSError where
  name : String
  message : String
deriving DecidableEq, Repr

/-- An element of the page, with the attributes the script touches. -/
structure Element where
  id : String
  textContent : String
  display : String
deriving DecidableEq, Repr

/-- What the script does to the world outside the document. -/
inductive Effect where
  | confirm (prompt : String)
  | fetch (method : String) (path : String)
  | alert (text : String)
  | consoleError (label : String) (error : JSError)
  | reload
deriving DecidableEq, Repr

/-- The page: its elements in document order and the trace of effects so far. -/
structure Page where
  document : List Element
  effects : List Effect
deriving DecidableEq, Repr

/-- The result of running a handler: the page it leaves, and the exception
that ended it when there is one. -/
structure Completion where
  page : Page
  thrown : Option JSError
deriving DecidableEq, Repr

/-- The target of a click: an element of the document (by position), or
something that is no element of it (the window, the document node). -/
inductive EventTarget where
  | element (node : Nat)
  | other
deriving DecidableEq, Repr

/-- A click event, of which the script reads `target` only. -/
structure Event where
  target : EventTarget
deriving DecidableEq, Repr

/-- A value produced by `response.json()`.  Numbers are integers here: the
script only asks whether a number is zero. -/
inductive JSON where
  | null
  | bool (b : Bool)
  | num (n : Int)
  | str (s : String)
  | arr (items : List JSON)
  | obj (members : List (String × JSON))

/-- A settled promise. -/
inductive Settled (α : Type) where
  | fulfilled (value : α)
  | rejected (reason : JSError)

/-- The response of the endpoint: its HTTP status (which the script never
reads) and what `response.json()` settles to. -/
structure Response where
  status : Nat
  json : Settled JSON

/-! ## Document access -/

/-- `document.getElementById(id)`: the first element in document order with
that id, or `null`. -/
def getElementById : List Element → String → Option Nat
  | [], _ => none
  | e :: es, id => if e.id = id then some 0 else (getElementById es id).map (· + 1)

/-- Apply `f` to the node at position `n`. -/
def updateNode (f : Element → Element) : Nat → List Element → List Element
  | _, [] => []
  | 0, e :: es => f e :: es
  | n + 1, e :: es => e :: updateNode f n es

/-- The node at position `n`. -/
def nodeAt : List Element → Nat → Option Element
  | [], _ => none
  | e :: _, 0 => some e
  | _ :: es, n + 1 => nodeAt es n

/-- Assignment `node.textContent = text`. -/
def setTextContent (node : Nat) (text : String) (p : Page) : Page :=
  { p with document := updateNode (fun e => { e with textContent := text }) node p.document }

/-- Assignment `node.style.display = value`. -/
def setDisplay (node : Nat) (value : String) (p : Page) : Page :=
  { p with document := updateNode (fun e => { e with display := value }) node p.document }

/-- Append an effect to the trace. -/
def emit (e : Effect) (p : Page) : Page :=
  { p with effects := p.effects ++ [e] }

/-- The exception of an assignment to a property of `null`. -/
def nullAssignment (property : String) : JSError :=
  ⟨"TypeError", "Cannot set properties of null (setting '" ++ property ++ "')"⟩

/-- The exception of reading a property of `null`. -/
def nullRead (property : String) : JSError :=
  ⟨"TypeError", "Cannot read properties of null (reading '" ++ property ++ "')"⟩

/-! ## The handlers -/

/-- `viewInquiry(inquiryId, message)`, lines 3-9. -/
def viewInquiry (_inquiryId : String) (message : String) (p : Page) : Completion :=
  let modal := getElementById p.document "inquiryModal"
  let messageElement := getElementById p.document "inquiryMessage"
  match messageElement with
  | none => ⟨p, some (nullAssignment "textContent")⟩
  | some m =>
    let p1 := setTextContent m message p
    match modal with
    | none => ⟨p1, some (nullRead "style")⟩
    | some d => ⟨setDisplay d "block" p1, none⟩

/-- `closeModal()`, lines 11-14. -/
def closeModal (p : Page) : Completion :=
  let modal := getElementById p.document "inquiryModal"
  match modal with
  | none => ⟨p, some (nullRead "style")⟩
  | some d => ⟨setDisplay d "none" p, none⟩

/-- Strict equality `event.target === modal` of a click target and the result
of `getElementById`.  A dispatched event has a target, so it is never equal
to `null`. -/
def targetIs (t : EventTarget) (modal : Option Nat) : Bool :=
  match t, modal with
  | .element n, some d => n == d
  | _, _ => false

/-- The handler `window.onclick`, lines 36-41. -/
def windowOnclick (event : Event) (p : Page) : Completion :=
  let modal := getElementById p.document "inquiryModal"
  if targetIs event.target modal then
    match modal with
    | none => ⟨p, some (nullRead "style")⟩
    | some d => ⟨setDisplay d "none" p, none⟩
  else
    ⟨p, none⟩

/-- Own-property lookup in a parsed JSON object; of duplicate names the last
one is the one `JSON.parse` keeps. -/
def lookupMember : List (String × JSON) → String → Option JSON
  | [], _ => none
  | (k, v) :: rest, key =>
    match lookupMember rest key with
    | some w => some w
    | none => if k = key then some v else none

/-- Property read `data[property]` for a property that no prototype defines
(such as `message`): `none` stands for `undefined`; reading from `null`
throws. -/
def getProperty (data : JSON) (property : String) : Except JSError (Option JSON) :=
  match data with
  | .null => .error (nullRead property)
  | .obj members => .ok (lookupMember members property)
  | _ => .ok none

/-- JavaScript truthiness (`ToBoolean`) of a value read from parsed JSON. -/
def truthy : Option JSON → Bool
  | none => false
  | some .null => false
  | some (.bool b) => b
  | some (.num n) => n != 0
  | some (.str s) => s != ""
  | some (.arr _) => true
  | some (.obj _) => true

/-- The first callback, line 21: `response => response.json()`. -/
def onResponse (response : Response) : Settled JSON :=
  response.json

/-- The second callback, lines 22-27. -/
def onData (data : JSON) (p : Page) : Completion :=
  match getProperty data "message" with
  | .error e => ⟨p, some e⟩
  | .ok v =>
    if truthy v then
      ⟨emit .reload (emit (.alert "Inquiry deleted successfully") p), none⟩
    else
      ⟨p, none⟩

/-- The rejection callback, lines 28-31. -/
def onError (error : JSError) (p : Page) : Page :=
  emit (.alert "Error deleting inquiry") (emit (.consoleError "Error:" error) p)

/-- The promise chain `fetch(..).then(onResponse).then(onData).catch(onError)`
run on the settlement of the fetch: a rejection skips the `then` callbacks
and reaches `catch`, and so does an exception thrown by `onData`. -/
def fetchSettled (outcome : Settled Response) (p : Page) : Page :=
  match outcome with
  | .rejected e => onError e p
  | .fulfilled response =>
    match onResponse response with
    | .rejected e => onError e p
    | .fulfilled data =>
      match onData data p with
      | ⟨p1, some e⟩ => onError e p1
      | ⟨p1, none⟩ => p1

/-- The synchronous part of `deleteInquiry(inquiryId)`, lines 17-20: the
confirmation dialog, answered by `answer`, and the request. -/
def deleteInquiryCall (inquiryId : String) (answer : Bool) (p : Page) : Page :=
  let p1 := emit (.confirm "Are you sure you want to delete this inquiry?") p
  if answer then
    emit (.fetch "DELETE" ("/admin/inquiry/" ++ inquiryId)) p1
  else
    p1

/-- One whole run of `deleteInquiry(inquiryId)`, lines 16-33: the call, and
when a request was issued, the callbacks on its settlement. -/
def deleteInquiry (inquiryId : String) (answer : Bool) (outcome : Settled Response)
    (p : Page) : Page :=
  let p1 := deleteInquiryCall inquiryId answer p
  if answer then fetchSettled outcome p1 else p1

/-! ## Observations -/

/-- The `style.display` of the element with the given id. -/
def displayOf (p : Page) (id : String) : Option String :=
  (getElementById p.document id).bind fun n => (nodeAt p.document n).map (·.display)

/-- The `textContent` of the element with the given id. -/
def textOf (p : Page) (id : String) : Option String :=
  (getElementById p.document id).bind fun n => (nodeAt p.document n).map (·.textContent)

/-- The requests in a trace, as (method, path). -/
def requestsOf : List Effect → List (String × String)
  | [] => []
  | .fetch m path :: rest => (m, path) :: requestsOf rest
  | _ :: rest => requestsOf rest

/-- The alerts in a trace. -/
def alertsOf : List Effect → List String
  | [] => []
  | .alert t :: rest => t :: alertsOf rest
  | _ :: rest => alertsOf rest

/-- Number of page reloads in a trace. -/
def reloadsOf : List Effect → Nat
  | [] => 0
  | .reload :: rest => reloadsOf rest + 1
  | _ :: rest => reloadsOf rest

/-- The errors logged to the console in a trace. -/
def loggedOf : List Effect → List JSError
  | [] => []
  | .consoleError _ e :: rest => e :: loggedOf rest
  | _ :: rest => loggedOf rest

/-! ## The modal as a state machine -/

/-- The two states of the modal. -/
inductive ModalState where
  | HIDDEN
  | VISIBLE
deriving DecidableEq, Repr

/-- The modal is visible when its display is `block`, as `viewInquiry` sets
it, and hidden otherwise. -/
def modalState (p : Page) : ModalState :=
  if displayOf p "inquiryModal" = some "block" then .VISIBLE else .HIDDEN

/-- The events of the page that run code of the script.  A run of
`deleteInquiry` is the event `deleteInquiry` (the call) followed, for a
confirmed call, at any later point by the event `fetchSettled` (its
callbacks): the page stays interactive while the request is pending, so
other events may come in between. -/
inductive Op where
  | viewInquiry (inquiryId message : String)
  | closeModal
  | click (event : Event)
  | deleteInquiry (inquiryId : String) (answer : Bool)
  | fetchSettled (outcome : Settled Response)

/-- Run the handler of one event.  An exception that ends a handler is not
caught by anything and does not stop later handlers. -/
def step (op : Op) (p : Page) : Page :=
  match op with
  | .viewInquiry inquiryId message => (viewInquiry inquiryId message p).page
  | .closeModal => (closeModal p).page
  | .click event => (windowOnclick event p).page
  | .deleteInquiry inquiryId answer => deleteInquiryCall inquiryId answer p
  | .fetchSettled outcome => fetchSettled outcome p

/-- Run the handlers of a sequence of events, first to last. -/
def run : List Op → Page → Page
  | [], p => p
  | op :: ops, p => run ops (step op p)

/-! ## Predicates of the specification -/

/-- A confirmed call is treated as success: relative to the page before, the
success alert was added and the page was reloaded once more. -/
def treatedAsSuccess (before after : Page) : Prop :=
  alertsOf after.effects = alertsOf before.effects ++ ["Inquiry deleted successfully"] ∧
  reloadsOf after.effects = reloadsOf before.effects + 1

instance (before after : Page) : Decidable (treatedAsSuccess before after) := by
  unfold treatedAsSuccess
  infer_instance

/-- The malformed or unexpected responses, in the words of the error
taxonomy: a body that does not parse as JSON (`response.json()` rejects), a
JSON `null`, or a JSON value without the field `message`. -/
def malformedResponse (response : Response) : Bool :=
  match response.json with
  | .rejected _ => true
  | .fulfilled .null => true
  | .fulfilled (.obj members) => (lookupMember members "message").isNone
  | .fulfilled _ => true

/-! ## Sample pages, responses and runs -/

/-- A page with a table row, the modal and its message element; the modal is
hidden. -/
def samplePage : Page :=
  { document :=
      [⟨"inquiryRow7", "Hello", ""⟩, ⟨"inquiryModal", "", "none"⟩, ⟨"inquiryMessage", "", ""⟩],
    effects := [] }

/-- A response `200 {"message": "Inquiry deleted"}`. -/
def deletedResponse : Response :=
  ⟨200, .fulfilled (.obj [("message", .str "Inquiry deleted")])⟩

/-- A response `404 {"error": "Inquiry not found"}`: the deletion failed at
the application level. -/
def notFoundResponse : Response :=
  ⟨404, .fulfilled (.obj [("error", .str "Inquiry not found")])⟩

/-- A response `200` whose body is not JSON. -/
def htmlResponse : Response :=
  ⟨200, .rejected ⟨"SyntaxError", "Unexpected token < in JSON at position 0"⟩⟩

/-- An inquiry is viewed, its deletion is confirmed, the content of the modal
is clicked while the request is pending, and the request fails. -/
def sampleRun : List Op :=
  [.viewInquiry "7" "Hello", .deleteInquiry "7" true, .click ⟨.element 2⟩,
   .fetchSettled (.rejected ⟨"TypeError", "Failed to fetch"⟩)]

/-! ## Lemmas on the document -/

theorem getElementById_updateNode (f : Element → Element) (hf : ∀ e, (f e).id = e.id)
    (id : String) : ∀ (n : Nat) (doc : List Element),
    getElementById (updateNode f n doc) id = getElementById doc id
  | _, [] => by simp [updateNode]
  | 0, e :: es => by simp [updateNode, getElementById, hf]
  | n + 1, e :: es => by
    simp [updateNode, getElementById, getElementById_updateNode f hf id n es]

theorem nodeAt_updateNode_same (f : Element → Element) :
    ∀ (n : Nat) (doc : List Element),
    nodeAt (updateNode f n doc) n = (nodeAt doc n).map f
  | _, [] => by simp [updateNode, nodeAt]
  | 0, e :: es => by simp [updateNode, nodeAt]
  | n + 1, e :: es => by simp [updateNode, nodeAt, nodeAt_updateNode_same f n es]

theorem nodeAt_updateNode_other (f : Element → Element) :
    ∀ (n k : Nat) (doc : List Element), n ≠ k →
    nodeAt (updateNode f n doc) k = nodeAt doc k
  | _, _, [], _ => by simp [updateNode, nodeAt]
  | 0, 0, _ :: _, h => absurd rfl h
  | 0, k + 1, e :: es, _ => by simp [updateNode, nodeAt]
  | n + 1, 0, e :: es, _ => by simp [updateNode, nodeAt]
  | n + 1, k + 1, e :: es, h => by
    simp only [updateNode, nodeAt]
    exact nodeAt_updateNode_other f n k es (fun hk => h (by rw [hk]))

theorem getElementById_nodeAt : ∀ (doc : List Element) (id : String) (n : Nat),
    getElementById doc id = some n → ∃ e, nodeAt doc n = some e ∧ e.id = id
  | [], _, _, h => by simp [getElementById] at h
  | e :: es, id, n, h => by
    by_cases he : e.id = id
    · simp [getElementById, he] at h
      subst h
      exact ⟨e, rfl, he⟩
    · simp only [getElementById, he, if_false, Option.map_eq_some'] at h
      obtain ⟨k, hk, rfl⟩ := h
      obtain ⟨e', h1, h2⟩ := getElementById_nodeAt es id k hk
      exact ⟨e', by simpa [nodeAt] using h1, h2⟩

theorem displayOf_setDisplay (p : Page) (id value : String) (n : Nat)
    (h : getElementById p.document id = some n) :
    displayOf (setDisplay n value p) id = some value := by
  obtain ⟨e, he, _⟩ := getElementById_nodeAt p.document id n h
  simp [displayOf, setDisplay, getElementById_updateNode, h, nodeAt_updateNode_same, he]

theorem textOf_setTextContent (p : Page) (id text : String) (n : Nat)
    (h : getElementById p.document id = some n) :
    textOf (setTextContent n text p) id = some text := by
  obtain ⟨e, he, _⟩ := getElementById_nodeAt p.document id n h
  simp [textOf, setTextContent, getElementById_updateNode, h, nodeAt_updateNode_same, he]

theorem nodeAt_updateNode_display (f : Element → Element) (hf : ∀ e, (f e).display = e.display)
    (n k : Nat) (doc : List Element) :
    (nodeAt (updateNode f n doc) k).map (·.display) = (nodeAt doc k).map (·.display) := by
  by_cases h : n = k
  · subst h
    rw [nodeAt_updateNode_same]
    cases nodeAt doc n <;> simp [hf]
  · rw [nodeAt_updateNode_other f n k doc h]

theorem nodeAt_updateNode_text (f : Element → Element)
    (hf : ∀ e, (f e).textContent = e.textContent) (n k : Nat) (doc : List Element) :
    (nodeAt (updateNode f n doc) k).map (·.textContent) = (nodeAt doc k).map (·.textContent) := by
  by_cases h : n = k
  · subst h
    rw [nodeAt_updateNode_same]
    cases nodeAt doc n <;> simp [hf]
  · rw [nodeAt_updateNode_other f n k doc h]

theorem getElementById_setDisplay (p : Page) (id value : String) (n : Nat) :
    getElementById (setDisplay n value p).document id = getElementById p.document id :=
  getElementById_updateNode (fun e => { e with display := value }) (fun _ => rfl) id n p.document

theorem getElementById_setTextContent (p : Page) (id text : String) (n : Nat) :
    getElementById (setTextContent n text p).document id = getElementById p.document id :=
  getElementById_updateNode (fun e => { e with textContent := text }) (fun _ => rfl) id n
    p.document

theorem displayOf_setTextContent (p : Page) (id text : String) (n : Nat) :
    displayOf (setTextContent n text p) id = displayOf p id := by
  unfold displayOf
  rw [getElementById_setTextContent]
  cases getElementById p.document id with
  | none => rfl
  | some k =>
    exact nodeAt_updateNode_display (fun e => { e with textContent := text }) (fun _ => rfl)
      n k p.document

theorem textOf_setDisplay (p : Page) (id value : String) (n : Nat) :
    textOf (setDisplay n value p) id = textOf p id := by
  unfold textOf
  rw [getElementById_setDisplay]
  cases getElementById p.document id with
  | none => rfl
  | some k =>
    exact nodeAt_updateNode_text (fun e => { e with display := value }) (fun _ => rfl)
      n k p.document

theorem updateNode_idem (f : Element → Element) (hf : ∀ e, f (f e) = f e) :
    ∀ (n : Nat) (doc : List Element), updateNode f n (updateNode f n doc) = updateNode f n doc
  | _, [] => by simp [updateNode]
  | 0, e :: es => by simp [updateNode, hf]
  | n + 1, e :: es => by simp [updateNode, updateNode_idem f hf n es]

theorem setDisplay_idem (p : Page) (value : String) (n : Nat) :
    setDisplay n value (setDisplay n value p) = setDisplay n value p := by
  simp only [setDisplay]
  rw [updateNode_idem (fun e => { e with display := value }) (fun _ => rfl)]

/-! ## Lemmas on the handlers of the modal -/

theorem viewInquiry_page (inquiryId message : String) (p : Page) (d m : Nat)
    (hd : getElementById p.document "inquiryModal" = some d)
    (hm : getElementById p.document "inquiryMessage" = some m) :
    viewInquiry inquiryId message p = ⟨setDisplay d "block" (setTextContent m message p), none⟩ := by
  simp only [viewInquiry, hd, hm]

theorem viewInquiry_display (inquiryId message : String) (p : Page)
    (hmodal : (getElementById p.document "inquiryModal").isSome = true)
    (hmsg : (getElementById p.document "inquiryMessage").isSome = true) :
    displayOf (viewInquiry inquiryId message p).page "inquiryModal" = some "block" := by
  obtain ⟨d, hd⟩ := Option.isSome_iff_exists.mp hmodal
  obtain ⟨m, hm⟩ := Option.isSome_iff_exists.mp hmsg
  rw [viewInquiry_page inquiryId message p d m hd hm]
  exact displayOf_setDisplay _ _ _ _ (by rw [getElementById_setTextContent, hd])

theorem closeModal_page (p : Page) (d : Nat)
    (hd : getElementById p.document "inquiryModal" = some d) :
    closeModal p = ⟨setDisplay d "none" p, none⟩ := by
  simp only [closeModal, hd]

theorem windowOnclick_modal (event : Event) (p : Page) (d : Nat)
    (hd : getElementById p.document "inquiryModal" = some d)
    (ht : event.target = .element d) :
    windowOnclick event p = ⟨setDisplay d "none" p, none⟩ := by
  have h1 : targetIs event.target (some d) = true := by simp [ht, targetIs]
  simp only [windowOnclick, hd, h1, if_true]

theorem windowOnclick_other (event : Event) (p : Page) (d : Nat)
    (hd : getElementById p.document "inquiryModal" = some d)
    (ht : event.target ≠ .element d) :
    windowOnclick event p = ⟨p, none⟩ := by
  have h1 : targetIs event.target (some d) = false := by
    cases hev : event.target with
    | other => simp [targetIs]
    | element n =>
      have : n ≠ d := fun h => ht (by rw [hev, h])
      simp [targetIs, this]
  simp [windowOnclick, hd, h1]

/-! ## The modal -/

/-- C1: on every page that has the elements `inquiryModal` and
`inquiryMessage`, `viewInquiry(id, message)` ends normally, leaves the modal
with display `block` and the message element with exactly `message` as its
text, and its result is the same for every id. -/
theorem viewInquiry_shows_message (inquiryId message : String) (p : Page)
    (hmodal : (getElementById p.document "inquiryModal").isSome = true)
    (hmsg : (getElementById p.document "inquiryMessage").isSome = true) :
    (viewInquiry inquiryId message p).thrown = none ∧
    displayOf (viewInquiry inquiryId message p).page "inquiryModal" = some "block" ∧
    textOf (viewInquiry inquiryId message p).page "inquiryMessage" = some message ∧
    ∀ otherId : String, viewInquiry otherId message p = viewInquiry inquiryId message p := by
  obtain ⟨d, hd⟩ := Option.isSome_iff_exists.mp hmodal
  obtain ⟨m, hm⟩ := Option.isSome_iff_exists.mp hmsg
  refine ⟨?_, viewInquiry_display inquiryId message p hmodal hmsg, ?_, fun _ => rfl⟩
  · rw [viewInquiry_page inquiryId message p d m hd hm]
  · rw [viewInquiry_page inquiryId message p d m hd hm]
    simp only [textOf_setDisplay]
    exact textOf_setTextContent _ _ _ _ hm

theorem viewInquiry_shows_message_witness :
    (getElementById samplePage.document "inquiryModal").isSome = true ∧
    (getElementById samplePage.document "inquiryMessage").isSome = true ∧
    (viewInquiry "7" "Hello" samplePage).thrown = none ∧
    displayOf (viewInquiry "7" "Hello" samplePage).page "inquiryModal" = some "block" ∧
    textOf (viewInquiry "7" "Hello" samplePage).page "inquiryMessage" = some "Hello" ∧
    ∀ otherId : String, viewInquiry otherId "Hello" samplePage = viewInquiry "7" "Hello" samplePage :=
  ⟨by decide, by decide,
    viewInquiry_shows_message "7" "Hello" samplePage (by decide) (by decide)⟩

/-- C2: on every page that has the modal element, whatever its display and
whatever the message text, `closeModal()` ends normally and leaves the modal
with display `none`; calling it a second time changes nothing. -/
theorem closeModal_hides (p : Page)
    (hmodal : (getElementById p.document "inquiryModal").isSome = true) :
    (closeModal p).thrown = none ∧
    displayOf (closeModal p).page "inquiryModal" = some "none" ∧
    closeModal (closeModal p).page = closeModal p := by
  obtain ⟨d, hd⟩ := Option.isSome_iff_exists.mp hmodal
  have hd1 : getElementById (setDisplay d "none" p).document "inquiryModal" = some d := by
    rw [getElementById_setDisplay, hd]
  rw [closeModal_page p d hd]
  refine ⟨rfl, displayOf_setDisplay _ _ _ _ hd, ?_⟩
  rw [closeModal_page _ d hd1, setDisplay_idem]

theorem closeModal_hides_witness :
    (getElementById samplePage.document "inquiryModal").isSome = true ∧
    (closeModal (viewInquiry "7" "Hello" samplePage).page).thrown = none ∧
    displayOf (closeModal (viewInquiry "7" "Hello" samplePage).page).page "inquiryModal"
      = some "none" ∧
    closeModal (closeModal (viewInquiry "7" "Hello" samplePage).page).page
      = closeModal (viewInquiry "7" "Hello" samplePage).page :=
  ⟨by decide, closeModal_hides (viewInquiry "7" "Hello" samplePage).page (by decide)⟩

/-- C3: on every page whose modal element is the node `d`, and for every
click: when the target is the node `d` itself the handler ends normally and
the modal has display `none`; when the target is anything else (another
element such as the content of the modal, or no element) the handler leaves
the whole page, the display of the modal included, exactly as it was. -/
theorem windowOnclick_hides_iff_backdrop (event : Event) (p : Page) (d : Nat)
    (hmodal : getElementById p.document "inquiryModal" = some d) :
    (event.target = .element d →
      (windowOnclick event p).thrown = none ∧
      displayOf (windowOnclick event p).page "inquiryModal" = some "none") ∧
    (event.target ≠ .element d → windowOnclick event p = ⟨p, none⟩) := by
  constructor
  · intro ht
    rw [windowOnclick_modal event p d hmodal ht]
    exact ⟨rfl, displayOf_setDisplay _ _ _ _ hmodal⟩
  · intro ht
    exact windowOnclick_other event p d hmodal ht

theorem windowOnclick_hides_iff_backdrop_witness :
    getElementById (viewInquiry "7" "Hello" samplePage).page.document "inquiryModal" = some 1 ∧
    displayOf (viewInquiry "7" "Hello" samplePage).page "inquiryModal" = some "block" ∧
    displayOf (windowOnclick ⟨.element 1⟩ (viewInquiry "7" "Hello" samplePage).page).page
      "inquiryModal" = some "none" ∧
    windowOnclick ⟨.element 2⟩ (viewInquiry "7" "Hello" samplePage).page
      = ⟨(viewInquiry "7" "Hello" samplePage).page, none⟩ :=
  ⟨by decide, by decide,
    ((windowOnclick_hides_iff_backdrop ⟨.element 1⟩ (viewInquiry "7" "Hello" samplePage).page 1
      (by decide)).1 rfl).2,
    (windowOnclick_hides_iff_backdrop ⟨.element 2⟩ (viewInquiry "7" "Hello" samplePage).page 1
      (by decide)).2 (by decide)⟩

/-! ## Deleting an inquiry -/

theorem requestsOf_append (xs ys : List Effect) :
    requestsOf (xs ++ ys) = requestsOf xs ++ requestsOf ys := by
  induction xs with
  | nil => rfl
  | cons x xs ih => cases x <;> simp [requestsOf, ih]

theorem alertsOf_append (xs ys : List Effect) :
    alertsOf (xs ++ ys) = alertsOf xs ++ alertsOf ys := by
  induction xs with
  | nil => rfl
  | cons x xs ih => cases x <;> simp [alertsOf, ih]

theorem loggedOf_append (xs ys : List Effect) :
    loggedOf (xs ++ ys) = loggedOf xs ++ loggedOf ys := by
  induction xs with
  | nil => rfl
  | cons x xs ih => cases x <;> simp [loggedOf, ih]

theorem reloadsOf_append (xs ys : List Effect) :
    reloadsOf (xs ++ ys) = reloadsOf xs + reloadsOf ys := by
  induction xs with
  | nil => simp [reloadsOf]
  | cons x xs ih =>
    cases x with
    | reload => simp [reloadsOf, ih]; omega
    | _ => simp [reloadsOf, ih]

/-- The callbacks never touch the document and issue no request. -/
theorem fetchSettled_frame (outcome : Settled Response) (p : Page) :
    (fetchSettled outcome p).document = p.document ∧
    requestsOf (fetchSettled outcome p).effects = requestsOf p.effects := by
  rcases outcome with ⟨status, data | e⟩ | e
  · cases data with
    | obj members =>
      cases h : truthy (lookupMember members "message") <;>
        simp [fetchSettled, onResponse, onData, onError, getProperty, emit, h,
          requestsOf_append, requestsOf]
    | _ =>
      simp [fetchSettled, onResponse, onData, onError, getProperty, emit, truthy,
        requestsOf_append, requestsOf]
  · simp [fetchSettled, onResponse, onError, emit, requestsOf_append, requestsOf]
  · simp [fetchSettled, onError, emit, requestsOf_append, requestsOf]

/-- C4: for every id, endpoint outcome and page: a declined `deleteInquiry`
only shows the confirmation dialog (document unchanged; no request, alert,
log or reload is added to the trace); a confirmed one leaves the document
unchanged and adds exactly one request, `DELETE /admin/inquiry/<id>`. -/
theorem deleteInquiry_requests (inquiryId : String) (outcome : Settled Response) (p : Page) :
    (deleteInquiry inquiryId false outcome p
        = ⟨p.document, p.effects ++ [.confirm "Are you sure you want to delete this inquiry?"]⟩ ∧
      requestsOf (deleteInquiry inquiryId false outcome p).effects = requestsOf p.effects ∧
      alertsOf (deleteInquiry inquiryId false outcome p).effects = alertsOf p.effects ∧
      loggedOf (deleteInquiry inquiryId false outcome p).effects = loggedOf p.effects ∧
      reloadsOf (deleteInquiry inquiryId false outcome p).effects = reloadsOf p.effects) ∧
    ((deleteInquiry inquiryId true outcome p).document = p.document ∧
      requestsOf (deleteInquiry inquiryId true outcome p).effects
        = requestsOf p.effects ++ [("DELETE", "/admin/inquiry/" ++ inquiryId)]) := by
  refine ⟨⟨rfl, ?_, ?_, ?_, ?_⟩, ?_, ?_⟩
  · simp [deleteInquiry, deleteInquiryCall, emit, requestsOf_append, requestsOf]
  · simp [deleteInquiry, deleteInquiryCall, emit, alertsOf_append, alertsOf]
  · simp [deleteInquiry, deleteInquiryCall, emit, loggedOf_append, loggedOf]
  · simp [deleteInquiry, deleteInquiryCall, emit, reloadsOf_append, reloadsOf]
  · simp only [deleteInquiry, if_true]
    rw [(fetchSettled_frame outcome _).1]
    rfl
  · simp only [deleteInquiry, if_true]
    rw [(fetchSettled_frame outcome _).2]
    simp [deleteInquiryCall, emit, requestsOf_append, requestsOf]

/-- C5 fails as stated: it is not so that every response object carrying the
success field `message` makes a confirmed call alert success and reload; on
the body `{"message": 0}` the field is present, and the trace is the
confirmation and the request only: no alert and no reload. -/
theorem deleteInquiry_present_not_success :
    (lookupMember [("message", JSON.num 0)] "message").isSome = true ∧
    deleteInquiry "7" true (.fulfilled ⟨200, .fulfilled (.obj [("message", .num 0)])⟩)
        samplePage
      = ⟨samplePage.document,
          [.confirm "Are you sure you want to delete this inquiry?",
           .fetch "DELETE" "/admin/inquiry/7"]⟩ ∧
    ¬ ∀ (inquiryId : String) (status : Nat) (members : List (String × JSON)) (p : Page),
      (lookupMember members "message").isSome = true →
      treatedAsSuccess p
        (deleteInquiry inquiryId true (.fulfilled ⟨status, .fulfilled (.obj members)⟩) p) := by
  refine ⟨rfl, by decide, fun h => ?_⟩
  have h1 := (h "7" 200 [("message", .num 0)] samplePage rfl).2
  have h2 : reloadsOf (deleteInquiry "7" true
      (.fulfilled ⟨200, .fulfilled (.obj [("message", .num 0)])⟩) samplePage).effects = 0 := by
    decide
  rw [h2] at h1
  simp [reloadsOf, samplePage] at h1

/-- C5, amended: for every id and page, when the call is confirmed and the
response body parses to a value whose `message` is truthy (the field is
present and its value is none of `null`, `false`, `0` and the empty string),
the trace grows by exactly: the confirmation, the request, the alert
`Inquiry deleted successfully`, one reload, in this order; so no failure
alert is shown and nothing is logged. -/
theorem deleteInquiry_success (inquiryId : String) (response : Response) (data : JSON)
    (v : Option JSON) (p : Page)
    (hjson : response.json = .fulfilled data)
    (hmsg : getProperty data "message" = .ok v)
    (htruthy : truthy v = true) :
    deleteInquiry inquiryId true (.fulfilled response) p
      = ⟨p.document, p.effects ++
          [.confirm "Are you sure you want to delete this inquiry?",
           .fetch "DELETE" ("/admin/inquiry/" ++ inquiryId),
           .alert "Inquiry deleted successfully",
           .reload]⟩ := by
  simp [deleteInquiry, deleteInquiryCall, fetchSettled, onResponse, onData, hjson, hmsg,
    htruthy, emit]

theorem deleteInquiry_success_witness :
    deletedResponse.json = .fulfilled (.obj [("message", .str "Inquiry deleted")]) ∧
    getProperty (.obj [("message", .str "Inquiry deleted")]) "message"
      = .ok (some (.str "Inquiry deleted")) ∧
    truthy (some (.str "Inquiry deleted")) = true ∧
    deleteInquiry "7" true (.fulfilled deletedResponse) samplePage
      = ⟨samplePage.document, samplePage.effects ++
          [.confirm "Are you sure you want to delete this inquiry?",
           .fetch "DELETE" ("/admin/inquiry/" ++ "7"),
           .alert "Inquiry deleted successfully",
           .reload]⟩ :=
  ⟨rfl, rfl, by decide,
    deleteInquiry_success "7" deletedResponse (.obj [("message", .str "Inquiry deleted")])
      (some (.str "Inquiry deleted")) samplePage rfl rfl (by decide)⟩

/-- C6: for every id, error and page, when the call is confirmed and the
fetch is rejected with the error, the document is unchanged (so are the
display of the modal and the text of the message element) and the trace
grows by exactly: the confirmation, the request, the console log of the
error, the alert `Error deleting inquiry`; so there is no reload and no
success alert. -/
theorem deleteInquiry_network_error (inquiryId : String) (error : JSError) (p : Page) :
    deleteInquiry inquiryId true (.rejected error) p
      = ⟨p.document, p.effects ++
          [.confirm "Are you sure you want to delete this inquiry?",
           .fetch "DELETE" ("/admin/inquiry/" ++ inquiryId),
           .consoleError "Error:" error,
           .alert "Error deleting inquiry"]⟩ ∧
    displayOf (deleteInquiry inquiryId true (.rejected error) p) "inquiryModal"
      = displayOf p "inquiryModal" ∧
    textOf (deleteInquiry inquiryId true (.rejected error) p) "inquiryMessage"
      = textOf p "inquiryMessage" ∧
    reloadsOf (deleteInquiry inquiryId true (.rejected error) p).effects = reloadsOf p.effects ∧
    alertsOf (deleteInquiry inquiryId true (.rejected error) p).effects
      = alertsOf p.effects ++ ["Error deleting inquiry"] ∧
    loggedOf (deleteInquiry inquiryId true (.rejected error) p).effects
      = loggedOf p.effects ++ [error] := by
  have h : deleteInquiry inquiryId true (.rejected error) p
      = ⟨p.document, p.effects ++
          [.confirm "Are you sure you want to delete this inquiry?",
           .fetch "DELETE" ("/admin/inquiry/" ++ inquiryId),
           .consoleError "Error:" error,
           .alert "Error deleting inquiry"]⟩ := by
    simp [deleteInquiry, deleteInquiryCall, fetchSettled, onError, emit]
  rw [h]
  refine ⟨rfl, rfl, rfl, ?_, ?_, ?_⟩
  · simp [reloadsOf_append, reloadsOf]
  · simp [alertsOf_append, alertsOf]
  · simp [loggedOf_append, loggedOf]

/-- C7: on the response `404 {"error": "Inquiry not found"}` a confirmed
`deleteInquiry("7")` only shows the confirmation and issues the request:
nothing is logged and no alert is shown (and the page is not reloaded). -/
theorem deleteInquiry_application_failure_silent :
    deleteInquiry "7" true (.fulfilled notFoundResponse) samplePage
      = ⟨samplePage.document,
          [.confirm "Are you sure you want to delete this inquiry?",
           .fetch "DELETE" "/admin/inquiry/7"]⟩ ∧
    loggedOf (deleteInquiry "7" true (.fulfilled notFoundResponse) samplePage).effects = [] ∧
    alertsOf (deleteInquiry "7" true (.fulfilled notFoundResponse) samplePage).effects = [] := by
  decide

/-- C8 fails as stated: the response whose body does not parse as JSON is
malformed, and the failure alert is shown for it. -/
theorem deleteInquiry_malformed_alerts :
    malformedResponse htmlResponse = true ∧
    alertsOf (deleteInquiry "7" true (.fulfilled htmlResponse) samplePage).effects
      = ["Error deleting inquiry"] := by
  decide

/-- C8, amended: for every id, page and response of a confirmed call, the
page is not reloaded and no success alert is shown when (1) the body parses
to a value other than `null` that has no field `message`: then the trace
grows by the confirmation and the request only, no alert of any kind and no
log; (2) the body does not parse: then the error is logged and the failure
alert is shown once; (3) the body is `null`: then the `TypeError` of reading
`message` is logged and the failure alert is shown once. -/
theorem deleteInquiry_unexpected_shape (inquiryId : String) (response : Response) (p : Page) :
    (∀ data : JSON, response.json = .fulfilled data → getProperty data "message" = .ok none →
      deleteInquiry inquiryId true (.fulfilled response) p
        = ⟨p.document, p.effects ++
            [.confirm "Are you sure you want to delete this inquiry?",
             .fetch "DELETE" ("/admin/inquiry/" ++ inquiryId)]⟩) ∧
    (∀ error : JSError, response.json = .rejected error →
      deleteInquiry inquiryId true (.fulfilled response) p
        = ⟨p.document, p.effects ++
            [.confirm "Are you sure you want to delete this inquiry?",
             .fetch "DELETE" ("/admin/inquiry/" ++ inquiryId),
             .consoleError "Error:" error,
             .alert "Error deleting inquiry"]⟩) ∧
    (response.json = .fulfilled .null →
      deleteInquiry inquiryId true (.fulfilled response) p
        = ⟨p.document, p.effects ++
            [.confirm "Are you sure you want to delete this inquiry?",
             .fetch "DELETE" ("/admin/inquiry/" ++ inquiryId),
             .consoleError "Error:" (nullRead "message"),
             .alert "Error deleting inquiry"]⟩) := by
  refine ⟨?_, ?_, ?_⟩
  · intro data hjson hmsg
    simp [deleteInquiry, deleteInquiryCall, fetchSettled, onResponse, onData, hjson, hmsg,
      truthy, emit]
  · intro error hjson
    simp [deleteInquiry, deleteInquiryCall, fetchSettled, onResponse, onError, hjson, emit]
  · intro hjson
    simp [deleteInquiry, deleteInquiryCall, fetchSettled, onResponse, onData, onError, hjson,
      getProperty, emit]

theorem deleteInquiry_unexpected_shape_witness :
    (deleteInquiry "7" true (.fulfilled ⟨200, .fulfilled (.arr [])⟩) samplePage
        = ⟨samplePage.document, samplePage.effects ++
            [.confirm "Are you sure you want to delete this inquiry?",
             .fetch "DELETE" ("/admin/inquiry/" ++ "7")]⟩) ∧
    (deleteInquiry "7" true (.fulfilled htmlResponse) samplePage
        = ⟨samplePage.document, samplePage.effects ++
            [.confirm "Are you sure you want to delete this inquiry?",
             .fetch "DELETE" ("/admin/inquiry/" ++ "7"),
             .consoleError "Error:" ⟨"SyntaxError", "Unexpected token < in JSON at position 0"⟩,
             .alert "Error deleting inquiry"]⟩) ∧
    (deleteInquiry "7" true (.fulfilled ⟨200, .fulfilled .null⟩) samplePage
        = ⟨samplePage.document, samplePage.effects ++
            [.confirm "Are you sure you want to delete this inquiry?",
             .fetch "DELETE" ("/admin/inquiry/" ++ "7"),
             .consoleError "Error:" (nullRead "message"),
             .alert "Error deleting inquiry"]⟩) :=
  ⟨(deleteInquiry_unexpected_shape "7" ⟨200, .fulfilled (.arr [])⟩ samplePage).1 (.arr [])
      rfl rfl,
    (deleteInquiry_unexpected_shape "7" htmlResponse samplePage).2.1 _ rfl,
    (deleteInquiry_unexpected_shape "7" ⟨200, .fulfilled .null⟩ samplePage).2.2 rfl⟩

/-- C9 fails as stated: it is not so that a response object is treated as
success exactly when it has a field `message`; the object `{"message": ""}`
has the field and is not treated as success. -/
theorem deleteInquiry_success_not_iff_present :
    ¬ ∀ (inquiryId : String) (status : Nat) (members : List (String × JSON)) (p : Page),
      treatedAsSuccess p
          (deleteInquiry inquiryId true (.fulfilled ⟨status, .fulfilled (.obj members)⟩) p)
        ↔ (lookupMember members "message").isSome = true := by
  intro h
  have h1 := (h "7" 200 [("message", .str "")] samplePage).mpr rfl
  have h2 : reloadsOf (deleteInquiry "7" true
      (.fulfilled ⟨200, .fulfilled (.obj [("message", .str "")])⟩) samplePage).effects = 0 := by
    decide
  have h3 := h1.2
  rw [h2] at h3
  simp [reloadsOf, samplePage] at h3

/-- C9, amended: for every id, status, response object and page, a confirmed
`deleteInquiry` treats the response as success (success alert, then reload)
if and only if the value of the field `message` of the object is truthy,
that is, the field is present and its value is none of `null`, `false`, `0`
and the empty string; otherwise the trace grows by the confirmation and the
request only. -/
theorem deleteInquiry_success_iff_truthy (inquiryId : String) (status : Nat)
    (members : List (String × JSON)) (p : Page) :
    (treatedAsSuccess p
        (deleteInquiry inquiryId true (.fulfilled ⟨status, .fulfilled (.obj members)⟩) p)
      ↔ truthy (lookupMember members "message") = true) ∧
    deleteInquiry inquiryId true (.fulfilled ⟨status, .fulfilled (.obj members)⟩) p
      = ⟨p.document, p.effects ++
          (if truthy (lookupMember members "message") then
            [.confirm "Are you sure you want to delete this inquiry?",
             .fetch "DELETE" ("/admin/inquiry/" ++ inquiryId),
             .alert "Inquiry deleted successfully",
             .reload]
          else
            [.confirm "Are you sure you want to delete this inquiry?",
             .fetch "DELETE" ("/admin/inquiry/" ++ inquiryId)])⟩ := by
  have key : deleteInquiry inquiryId true (.fulfilled ⟨status, .fulfilled (.obj members)⟩) p
      = ⟨p.document, p.effects ++
          (if truthy (lookupMember members "message") then
            [.confirm "Are you sure you want to delete this inquiry?",
             .fetch "DELETE" ("/admin/inquiry/" ++ inquiryId),
             .alert "Inquiry deleted successfully",
             .reload]
          else
            [.confirm "Are you sure you want to delete this inquiry?",
             .fetch "DELETE" ("/admin/inquiry/" ++ inquiryId)])⟩ := by
    cases h : truthy (lookupMember members "message") <;>
      simp [deleteInquiry, deleteInquiryCall, fetchSettled, onResponse, onData, getProperty,
        h, emit]
  refine ⟨?_, key⟩
  rw [key]
  cases h : truthy (lookupMember members "message") <;>
    simp [treatedAsSuccess, alertsOf_append, alertsOf, reloadsOf_append, reloadsOf]

/-! ## Sequences of events -/

theorem run_append (xs ys : List Op) (p : Page) : run (xs ++ ys) p = run ys (run xs p) := by
  induction xs generalizing p with
  | nil => rfl
  | cons x xs ih => simp [run, ih]

theorem getElementById_step (op : Op) (p : Page) (id : String) :
    getElementById (step op p).document id = getElementById p.document id := by
  cases op with
  | viewInquiry inquiryId message =>
    simp only [step, viewInquiry]
    cases getElementById p.document "inquiryMessage" with
    | none => rfl
    | some m =>
      cases getElementById p.document "inquiryModal" with
      | none => exact getElementById_setTextContent _ _ _ _
      | some d =>
        simp only [getElementById_setDisplay, getElementById_setTextContent]
  | closeModal =>
    simp only [step, closeModal]
    cases getElementById p.document "inquiryModal" with
    | none => rfl
    | some d => exact getElementById_setDisplay _ _ _ _
  | click event =>
    simp only [step, windowOnclick]
    cases getElementById p.document "inquiryModal" with
    | none => simp [targetIs]
    | some d =>
      cases targetIs event.target (some d) with
      | false => simp
      | true => simpa using getElementById_setDisplay _ _ _ _
  | deleteInquiry inquiryId answer =>
    cases answer <;> rfl
  | fetchSettled outcome =>
    simp only [step]
    rw [(fetchSettled_frame outcome p).1]

theorem getElementById_run (ops : List Op) (p : Page) (id : String) :
    getElementById (run ops p).document id = getElementById p.document id := by
  induction ops generalizing p with
  | nil => rfl
  | cons op ops ih => simp [run, ih, getElementById_step]

/-- No handler but `viewInquiry`, `closeModal` and a click on the modal node
changes the display of the modal. -/
theorem displayOf_step_other (op : Op) (p : Page) (d : Nat)
    (hmodal : getElementById p.document "inquiryModal" = some d)
    (hview : ∀ inquiryId message, op ≠ .viewInquiry inquiryId message)
    (hclose : op ≠ .closeModal)
    (hclick : op ≠ .click ⟨.element d⟩) :
    displayOf (step op p) "inquiryModal" = displayOf p "inquiryModal" := by
  cases op with
  | viewInquiry inquiryId message => exact absurd rfl (hview inquiryId message)
  | closeModal => exact absurd rfl hclose
  | click event =>
    have ht : event.target ≠ .element d := by
      intro h
      apply hclick
      cases event
      simp_all
    simp only [step]
    rw [windowOnclick_other event p d hmodal ht]
  | deleteInquiry inquiryId answer =>
    cases answer <;> rfl
  | fetchSettled outcome =>
    simp only [step, displayOf]
    rw [(fetchSettled_frame outcome p).1]

theorem modalState_of_display (p q : Page)
    (h : displayOf q "inquiryModal" = displayOf p "inquiryModal") :
    modalState q = modalState p := by
  simp only [modalState, h]

/-- A list that ends in `last` splits at an element with `V` followed only by
elements with `P` exactly when `last` has `V`, or `last` has `P` and the list
before it splits so. -/
theorem exists_split_snoc {α : Type} (V P : α → Prop) (init : List α) (last : α) :
    (∃ pre v post, init ++ [last] = pre ++ v :: post ∧ V v ∧ ∀ x ∈ post, P x) ↔
      V last ∨ (P last ∧ ∃ pre v post, init = pre ++ v :: post ∧ V v ∧ ∀ x ∈ post, P x) := by
  constructor
  · rintro ⟨pre, v, post, h, hv, hp⟩
    rcases List.eq_nil_or_concat post with rfl | ⟨L, b, rfl⟩
    · obtain ⟨_, h2⟩ := List.append_inj' h rfl
      simp only [List.cons.injEq, and_true] at h2
      subst h2
      exact Or.inl hv
    · rw [List.concat_eq_append] at h hp
      have h3 : init ++ [last] = (pre ++ v :: L) ++ [b] := by simpa using h
      obtain ⟨h1, h2⟩ := List.append_inj' h3 rfl
      simp only [List.cons.injEq, and_true] at h2
      subst h2
      exact Or.inr ⟨hp _ (by simp), pre, v, L, h1, hv, fun x hx => hp x (by simp [hx])⟩
  · rintro (hv | ⟨hl, pre, v, post, h, hv, hp⟩)
    · exact ⟨init, last, [], rfl, hv, by simp⟩
    · refine ⟨pre, v, post ++ [last], by simp [h], hv, ?_⟩
      intro x hx
      rcases List.mem_append.mp hx with hx | hx
      · exact hp x hx
      · rw [List.mem_singleton.mp hx]
        exact hl

/-- The state of the modal after a sequence of events, from a page on which
the modal is hidden. -/
theorem modalState_run (ops : List Op) (p : Page) (d : Nat)
    (hmodal : getElementById p.document "inquiryModal" = some d)
    (hmsg : (getElementById p.document "inquiryMessage").isSome = true)
    (hinit : modalState p = .HIDDEN) :
    modalState (run ops p) = .VISIBLE ↔
      ∃ pre v post, ops = pre ++ v :: post ∧ (∃ inquiryId message, v = .viewInquiry inquiryId message) ∧
        ∀ op ∈ post, op ≠ .closeModal ∧ op ≠ .click ⟨.element d⟩ := by
  induction ops using List.reverseRecOn with
  | nil =>
    simp [run, hinit]
  | append_singleton init last ih =>
    have hq : getElementById (run init p).document "inquiryModal" = some d := by
      rw [getElementById_run, hmodal]
    have hqm : (getElementById (run init p).document "inquiryMessage").isSome = true := by
      rw [getElementById_run, hmsg]
    rw [exists_split_snoc, ← ih, run_append]
    simp only [run]
    cases last with
    | viewInquiry inquiryId message =>
      have h1 := viewInquiry_display inquiryId message (run init p) (by rw [hq]; rfl) hqm
      simp [step, modalState, h1]
    | closeModal =>
      have h1 : displayOf (step .closeModal (run init p)) "inquiryModal" = some "none" := by
        simp only [step, closeModal_page _ d hq]
        exact displayOf_setDisplay _ _ _ _ hq
      simp [modalState, h1]
    | click event =>
      by_cases ht : event.target = .element d
      · have h1 : displayOf (step (.click event) (run init p)) "inquiryModal" = some "none" := by
          simp only [step, windowOnclick_modal event _ d hq ht]
          exact displayOf_setDisplay _ _ _ _ hq
        have h2 : event = ⟨.element d⟩ := by
          cases event
          simp_all
        subst h2
        simp [modalState, h1]
      · have h2 : event ≠ ⟨.element d⟩ := fun h => ht (by rw [h])
        have h1 := displayOf_step_other (.click event) (run init p) d hq (by simp) (by simp)
          (by simpa using h2)
        simp [modalState_of_display _ _ h1, h2]
    | deleteInquiry inquiryId answer =>
      have h1 := displayOf_step_other (.deleteInquiry inquiryId answer) (run init p) d hq
        (by simp) (by simp) (by simp)
      simp [modalState_of_display _ _ h1]
    | fetchSettled outcome =>
      have h1 := displayOf_step_other (.fetchSettled outcome) (run init p) d hq
        (by simp) (by simp) (by simp)
      simp [modalState_of_display _ _ h1]

/-- C10: from a page that has the modal element (node `d`) and the message
element and on which the modal is hidden, and for every sequence of events
(`viewInquiry`, `closeModal`, clicks on any target, calls of `deleteInquiry`
with any answer, settlements of their requests with any outcome) in which no
reload happens: the modal is visible after the sequence if and only if the
sequence contains a `viewInquiry` after which there is no `closeModal` and no
click on the node `d`.  Further, on every page with that modal node, a call
of `deleteInquiry`, the callbacks of its request and a click on any other
target leave the state of the modal as it was. -/
theorem modal_visible_iff (ops : List Op) (p : Page) (d : Nat)
    (hmodal : getElementById p.document "inquiryModal" = some d)
    (hmsg : (getElementById p.document "inquiryMessage").isSome = true)
    (hinit : modalState p = .HIDDEN)
    (_hreload : reloadsOf (run ops p).effects = reloadsOf p.effects) :
    (modalState (run ops p) = .VISIBLE ↔
      ∃ pre inquiryId message post, ops = pre ++ .viewInquiry inquiryId message :: post ∧
        ∀ op ∈ post, op ≠ .closeModal ∧ op ≠ .click ⟨.element d⟩) ∧
    (∀ q : Page, getElementById q.document "inquiryModal" = some d →
      (∀ inquiryId answer,
        modalState (step (.deleteInquiry inquiryId answer) q) = modalState q) ∧
      (∀ outcome, modalState (step (.fetchSettled outcome) q) = modalState q) ∧
      (∀ event : Event, event.target ≠ .element d →
        modalState (step (.click event) q) = modalState q)) := by
  constructor
  · rw [modalState_run ops p d hmodal hmsg hinit]
    constructor
    · rintro ⟨pre, v, post, h, ⟨inquiryId, message, rfl⟩, hp⟩
      exact ⟨pre, inquiryId, message, post, h, hp⟩
    · rintro ⟨pre, inquiryId, message, post, h, hp⟩
      exact ⟨pre, _, post, h, ⟨inquiryId, message, rfl⟩, hp⟩
  · intro q hq
    refine ⟨fun inquiryId answer => ?_, fun outcome => ?_, fun event ht => ?_⟩
    · exact modalState_of_display _ _
        (displayOf_step_other _ q d hq (by simp) (by simp) (by simp))
    · exact modalState_of_display _ _
        (displayOf_step_other _ q d hq (by simp) (by simp) (by simp))
    · have h2 : event ≠ ⟨.element d⟩ := fun h => ht (by rw [h])
      exact modalState_of_display _ _
        (displayOf_step_other _ q d hq (by simp) (by simp) (by simpa using h2))

theorem modal_visible_iff_witness :
    getElementById samplePage.document "inquiryModal" = some 1 ∧
    (getElementById samplePage.document "inquiryMessage").isSome = true ∧
    modalState samplePage = .HIDDEN ∧
    reloadsOf (run sampleRun samplePage).effects = reloadsOf samplePage.effects ∧
    modalState (run sampleRun samplePage) = .VISIBLE ∧
    (modalState (run sampleRun samplePage) = .VISIBLE ↔
      ∃ pre inquiryId message post,
        sampleRun = pre ++ .viewInquiry inquiryId message :: post ∧
        ∀ op ∈ post, op ≠ .closeModal ∧ op ≠ .click ⟨.element 1⟩) :=
  ⟨by decide, by decide, by decide, by decide, by decide,
    (modal_visible_iff sampleRun samplePage 1 (by decide) (by decide) (by decide)
      (by decide)).1⟩

end Admin
